import Mathlib

/-!
# Shipwreck Explorer — verification of the core data pipeline

A shallow embedding of the loader, filter engine and aggregators of
`src/app.py` (an interactive shipwreck-data dashboard).  A table is a
`List` of records; pandas missing values (`NaN`) are `Option.none`;
numeric columns are `Int`.  The map view and the latitude/longitude
columns are presentational and not modelled here.
-/

/-- One row of the source CSV after `pd.to_numeric(..., errors="coerce")`:
unparseable numerics have become missing (`none`). -/
structure RawRecord where
  name : String
  year : Option Int
  vesselType : Option String
  livesLost : Option Int
  location : String
  cause : String
deriving DecidableEq, Repr

/-- A row after `load_data` has added the derived columns
`LIVES_LOST_CLEAN`, `DECADE` and `CENTURY`. -/
structure WreckRecord where
  name : String
  year : Option Int
  vesselType : Option String
  livesLost : Option Int
  livesLostClean : Int
  decade : Option Int
  century : Option Int
  location : String
  cause : String
deriving DecidableEq, Repr

/-- The per-row work of `load_data` (src/app.py lines 52-67):
`LIVES_LOST_CLEAN = LIVES LOST |> fillna(0)`,
`DECADE = y // 10 * 10` (Python floor division) when the year is present,
`CENTURY = floor(y / 100) + 1` when the year is present. -/
def loadRecord (r : RawRecord) : WreckRecord :=
  { name := r.name
    year := r.year
    vesselType := r.vesselType
    livesLost := r.livesLost
    livesLostClean := r.livesLost.getD 0
    decade := r.year.map (fun y => Int.fdiv y 10 * 10)
    century := r.year.map (fun y => Int.fdiv y 100 + 1)
    location := r.location
    cause := r.cause }

/-- `load_data` over the whole table. -/
def load_data (rows : List RawRecord) : List WreckRecord :=
  rows.map loadRecord

/-- The year mask of `filter_wrecks`:
`df["YEAR"].between(year_range[0], year_range[1])`; a missing year
compares false. -/
def year_mask (lo hi : Int) (r : WreckRecord) : Bool :=
  match r.year with
  | some y => decide (lo ≤ y) && decide (y ≤ hi)
  | none => false

/-- The vessel-type mask of `filter_wrecks`: with no selection
(`None` or an empty list, Python `not vessel_types`) keep rows whose
`VESSEL TYPE` is not missing; otherwise `df["VESSEL TYPE"].isin(...)`,
which is false on a missing value. -/
def type_mask (vessel_types : Option (List String)) (r : WreckRecord) : Bool :=
  match vessel_types with
  | none => r.vesselType.isSome
  | some [] => r.vesselType.isSome
  | some ts =>
    match r.vesselType with
    | some t => ts.contains t
    | none => false

/-- The lives-lost mask of `filter_wrecks`:
`df["LIVES_LOST_CLEAN"] >= min_lives_lost`. -/
def lives_mask (min_lives_lost : Int) (r : WreckRecord) : Bool :=
  decide (min_lives_lost ≤ r.livesLostClean)

/-- `filter_wrecks(df, year_range, vessel_types, min_lives_lost)`
(src/app.py lines 80-106): conjunction of the three masks, rows kept in
table order. -/
def filter_wrecks (df : List WreckRecord) (lo hi : Int)
    (vessel_types : Option (List String)) (min_lives_lost : Int) :
    List WreckRecord :=
  df.filter (fun r =>
    year_mask lo hi r && type_mask vessel_types r && lives_mask min_lives_lost r)

/-- `get_year_limits(df)` (src/app.py lines 110-118): drop missing years;
on an empty remainder return the fallback `(1705, 2000)`, else
`(min, max)`. -/
def get_year_limits (df : List WreckRecord) : Int × Int :=
  match df.filterMap (fun r => r.year) with
  | [] => (1705, 2000)
  | y :: ys => (ys.foldl min y, ys.foldl max y)

/-- Output of the deadliest-wrecks view: the displayed top-10 table and
the four summary statistics. -/
structure DeadlyStats where
  top10 : List WreckRecord
  total : Nat
  withLives : Nat
  sumLives : Int
  maxLives : Int
deriving DecidableEq, Repr

/-- The descending order used by `sort_values("LIVES_LOST_CLEAN",
ascending=False)`. -/
def byLivesDesc (a b : WreckRecord) : Prop :=
  b.livesLostClean ≤ a.livesLostClean

instance : DecidableRel byLivesDesc := fun a b =>
  inferInstanceAs (Decidable (b.livesLostClean ≤ a.livesLostClean))

/-- `show_deadliest_view(filtered)` (src/app.py lines 267-302): on an
empty view report "no matching" (`none`); otherwise sort descending by
`LIVES_LOST_CLEAN`, take the first 10, and compute the summary
statistics (count, count with lives lost, sum, max). -/
def show_deadliest_view (filtered : List WreckRecord) : Option DeadlyStats :=
  match filtered with
  | [] => none
  | r :: rs =>
    let deadly := List.insertionSort byLivesDesc (r :: rs)
    some { top10 := deadly.take 10
           total := (r :: rs).length
           withLives := ((r :: rs).filter (fun x => decide (0 < x.livesLostClean))).length
           sumLives := ((r :: rs).map (fun x => x.livesLostClean)).sum
           maxLives := rs.foldl (fun acc x => max acc x.livesLostClean) r.livesLostClean }

/-- Lexicographic order on code points, the order Python uses to compare
strings (and hence the order of pandas `groupby` keys). -/
def lexLeChars : List Char → List Char → Bool
  | [], _ => true
  | _ :: _, [] => false
  | a :: as, b :: bs =>
    if a.toNat < b.toNat then true
    else if b.toNat < a.toNat then false
    else lexLeChars as bs

def strLe (a b : String) : Bool :=
  lexLeChars a.data b.data

/-- `filtered.groupby("VESSEL TYPE")["SHIP'S NAME"].count()` followed by
`reset_index`: one `(type, count)` row per present vessel type, rows in
ascending key order (pandas `groupby` sorts keys and drops missing
keys), with the fresh integer index 0,1,... implicit in list position. -/
def group_counts (filtered : List WreckRecord) : List (String × Nat) :=
  let keys := List.insertionSort (fun a b => strLe a b = true)
    ((filtered.filterMap (fun r => r.vesselType)).dedup)
  keys.map (fun k =>
    (k, (filtered.filter (fun r => decide (r.vesselType = some k))).length))

/-- Output of the vessel-type chart view: the counts table as displayed
(after the descending sort) and the row reported as "most frequently
wrecked vessel type". -/
structure VesselCounts where
  counts : List (String × Nat)
  reported : Option (String × Nat)
deriving DecidableEq, Repr

/-- `show_vessel_chart_view(filtered)` (src/app.py lines 182-222): on an
empty view report "no matching" (`none`); otherwise build the counts
table, sort it descending by count (index labels keep their pre-sort
values, as in pandas), and report
`counts.iloc[counts["WRECK COUNT"].idxmax()]`: `idxmax` yields the index
LABEL of the first maximal count in the sorted order, which `iloc` then
uses as a POSITION.  (`none` for `reported` marks the raise that pandas
`idxmax` performs on an empty counts table.) -/
def show_vessel_chart_view (filtered : List WreckRecord) : Option VesselCounts :=
  match filtered with
  | [] => none
  | r :: rs =>
    let labeled := (group_counts (r :: rs)).enum
    let sortedCounts :=
      List.insertionSort (fun a b : Nat × String × Nat => b.2.2 ≤ a.2.2) labeled
    let reported :=
      match sortedCounts with
      | [] => none
      | (lbl, _) :: _ => (sortedCounts[lbl]?).map (fun e => e.2)
    some { counts := sortedCounts.map (fun e => e.2), reported := reported }

/-- The spec's acceptance predicate for the filter engine, written from
§4.2 of the specification: year present and inside the inclusive range,
vessel type present (empty selection) or a member of the selection, and
`lives_lost_clean` at least the threshold. -/
def accepts_spec (lo hi : Int) (vessel_types : Option (List String))
    (min_lives_lost : Int) (r : WreckRecord) : Bool :=
  (match r.year with
   | some y => decide (lo ≤ y ∧ y ≤ hi)
   | none => false)
  &&
  (match vessel_types with
   | none => r.vesselType.isSome
   | some [] => r.vesselType.isSome
   | some ts => decide (∃ t ∈ ts, r.vesselType = some t))
  &&
  decide (min_lives_lost ≤ r.livesLostClean)

/-- A raw row with every optional field missing. -/
def deltaRaw : RawRecord :=
  { name := "Delta", year := none, vesselType := none, livesLost := none,
    location := "", cause := "" }

def deltaRec : WreckRecord := loadRecord deltaRaw

/-- The first sample record: the 1850 Schooner with 3 lives lost. -/
def alphaRec : WreckRecord :=
  loadRecord { name := "Alpha", year := some 1850, vesselType := some "Schooner",
               livesLost := some 3, location := "", cause := "" }

/-- The end-to-end sample table of §8 of the specification, plus one row
with all optional fields missing. -/
def sampleRaw : List RawRecord :=
  [{ name := "Alpha", year := some 1850, vesselType := some "Schooner",
     livesLost := some 3, location := "", cause := "" },
   { name := "Beta", year := some 1850, vesselType := some "Schooner",
     livesLost := some 0, location := "", cause := "" },
   { name := "Gamma", year := some 1920, vesselType := some "Steamer",
     livesLost := some 50, location := "", cause := "" },
   deltaRaw]

def sampleDf : List WreckRecord := load_data sampleRaw

/-- A filtered view on which the vessel-type chart misreports the most
frequent type: two records of type "B" and one of type "A". -/
def dfBug : List WreckRecord :=
  load_data
    [{ name := "s1", year := some 1850, vesselType := some "B",
       livesLost := some 3, location := "", cause := "" },
     { name := "s2", year := some 1850, vesselType := some "B",
       livesLost := some 0, location := "", cause := "" },
     { name := "s3", year := some 1920, vesselType := some "A",
       livesLost := some 50, location := "", cause := "" }]

instance : IsTotal WreckRecord byLivesDesc :=
  ⟨fun a b => le_total b.livesLostClean a.livesLostClean⟩

instance : IsTrans WreckRecord byLivesDesc :=
  ⟨fun _ _ _ hab hbc => le_trans hbc hab⟩

/-! ## Helper lemmas -/

theorem le_foldl_max (init : Int) (l : List Int) :
    init ≤ l.foldl max init ∧ ∀ x ∈ l, x ≤ l.foldl max init := by
  induction l generalizing init with
  | nil => exact ⟨le_refl _, by intro x hx; cases hx⟩
  | cons a l ih =>
    obtain ⟨h1, h2⟩ := ih (max init a)
    refine ⟨le_trans (le_max_left _ _) h1, ?_⟩
    intro x hx
    rcases List.mem_cons.mp hx with rfl | hx
    · exact le_trans (le_max_right _ _) h1
    · exact h2 x hx

theorem foldl_max_mem (init : Int) (l : List Int) :
    l.foldl max init = init ∨ l.foldl max init ∈ l := by
  induction l generalizing init with
  | nil => exact Or.inl rfl
  | cons a l ih =>
    rcases ih (max init a) with h | h
    · rcases max_choice init a with hm | hm
      · exact Or.inl (by rw [List.foldl_cons, h, hm])
      · exact Or.inr (by rw [List.foldl_cons, h, hm]; exact List.mem_cons_self a l)
    · exact Or.inr (List.mem_cons_of_mem a h)

theorem foldl_min_le (init : Int) (l : List Int) :
    l.foldl min init ≤ init ∧ ∀ x ∈ l, l.foldl min init ≤ x := by
  induction l generalizing init with
  | nil => exact ⟨le_refl _, by intro x hx; cases hx⟩
  | cons a l ih =>
    obtain ⟨h1, h2⟩ := ih (min init a)
    refine ⟨le_trans h1 (min_le_left _ _), ?_⟩
    intro x hx
    rcases List.mem_cons.mp hx with rfl | hx
    · exact le_trans h1 (min_le_right _ _)
    · exact h2 x hx

theorem foldl_min_mem (init : Int) (l : List Int) :
    l.foldl min init = init ∨ l.foldl min init ∈ l := by
  induction l generalizing init with
  | nil => exact Or.inl rfl
  | cons a l ih =>
    rcases ih (min init a) with h | h
    · rcases min_choice init a with hm | hm
      · exact Or.inl (by rw [List.foldl_cons, h, hm])
      · exact Or.inr (by rw [List.foldl_cons, h, hm]; exact List.mem_cons_self a l)
    · exact Or.inr (List.mem_cons_of_mem a h)

/-! ## Claim theorems -/

/-- C1 (counterexample): the derived century of a record with year 1900 is
20, not 19 as the claim's example states. -/
theorem century_year_1900_is_20_not_19 :
    (loadRecord { name := "Aurora", year := some 1900, vesselType := none,
                  livesLost := none, location := "", cause := "" }).century = some 20 ∧
    (((some (20 : Int)) == (some (19 : Int))) = false) := by
  exact ⟨rfl, by decide⟩

/-- C1 (amended): for every record whose year is present, the derived
century column equals floor(year/100)+1; year 1895 yields century 19,
year 1900 yields century 20, year 1901 yields century 20; century is
absent when the year is absent. -/
theorem century_derivation (r : RawRecord) :
    ((∀ y, r.year = some y → (loadRecord r).century = some (Int.fdiv y 100 + 1)) ∧
     (r.year = none → (loadRecord r).century = none)) ∧
    ((loadRecord { name := "a", year := some 1895, vesselType := none,
                   livesLost := none, location := "", cause := "" }).century = some 19 ∧
     (loadRecord { name := "a", year := some 1900, vesselType := none,
                   livesLost := none, location := "", cause := "" }).century = some 20 ∧
     (loadRecord { name := "a", year := some 1901, vesselType := none,
                   livesLost := none, location := "", cause := "" }).century = some 20) := by
  refine ⟨⟨?_, ?_⟩, by decide, by decide, by decide⟩
  · intro y hy
    simp [loadRecord, hy]
  · intro hy
    simp [loadRecord, hy]

theorem century_derivation_witness :
    (loadRecord { name := "w", year := some 1850, vesselType := none,
                  livesLost := none, location := "", cause := "" }).century
      = some (Int.fdiv 1850 100 + 1) :=
  (century_derivation _).1.1 1850 rfl

/-- C7: filtering is idempotent: applying `filter_wrecks` to its own output
with the same criteria returns that output unchanged. -/
theorem filter_wrecks_idempotent (df : List WreckRecord) (lo hi : Int)
    (sel : Option (List String)) (m : Int) :
    filter_wrecks (filter_wrecks df lo hi sel m) lo hi sel m =
      filter_wrecks df lo hi sel m := by
  simp [filter_wrecks, List.filter_filter]

/-- C3: for every record set and filter criteria, `filter_wrecks` returns
exactly the subsequence of input records satisfying the three spec
predicates (year range, vessel-type membership, minimum lives lost)
simultaneously, in source order. -/
theorem filter_wrecks_matches_spec (df : List WreckRecord) (lo hi : Int)
    (sel : Option (List String)) (m : Int) :
    filter_wrecks df lo hi sel m = df.filter (accepts_spec lo hi sel m) ∧
    (filter_wrecks df lo hi sel m).Sublist df := by
  refine ⟨?_, List.filter_sublist _⟩
  apply List.filter_congr
  intro r _
  unfold year_mask type_mask lives_mask accepts_spec
  cases r.year <;> cases hv : r.vesselType <;>
    rcases sel with _ | ⟨_ | ⟨t, ts⟩⟩ <;>
      simp [hv, eq_comm, List.contains_iff_exists_mem_beq]

/-- C4: every record in the filtered view has a present year inside the
inclusive range; no record with absent year appears. -/
theorem filter_wrecks_year_in_range (df : List WreckRecord) (lo hi : Int)
    (sel : Option (List String)) (m : Int) (r : WreckRecord)
    (h : r ∈ filter_wrecks df lo hi sel m) :
    ∃ y, r.year = some y ∧ lo ≤ y ∧ y ≤ hi := by
  rw [filter_wrecks, List.mem_filter] at h
  obtain ⟨-, hb⟩ := h
  simp only [Bool.and_eq_true] at hb
  obtain ⟨⟨hy, -⟩, -⟩ := hb
  unfold year_mask at hy
  cases hyr : r.year with
  | none => rw [hyr] at hy; exact absurd hy (by simp)
  | some y =>
    rw [hyr] at hy
    simp only [Bool.and_eq_true, decide_eq_true_eq] at hy
    exact ⟨y, rfl, hy.1, hy.2⟩

theorem filter_wrecks_year_in_range_witness :
    ∃ y, alphaRec.year = some y ∧ (1840 : Int) ≤ y ∧ y ≤ 1860 :=
  filter_wrecks_year_in_range sampleDf 1840 1860 none 0 alphaRec (by decide)

/-- C5: with an empty or absent vessel-type selection the vessel-type
predicate accepts exactly the records with a present vessel type; with a
non-empty selection it accepts exactly the records whose vessel type is a
member of the selection; and every record accepted by the filter passes
the vessel-type predicate. -/
theorem vessel_type_selection_spec (sel : Option (List String)) (r : WreckRecord) :
    ((sel = none ∨ sel = some []) → (type_mask sel r = true ↔ r.vesselType.isSome = true)) ∧
    (∀ t0 ts, sel = some (t0 :: ts) →
      (type_mask sel r = true ↔ ∃ t ∈ t0 :: ts, r.vesselType = some t)) ∧
    (∀ df lo hi m, r ∈ filter_wrecks df lo hi sel m → type_mask sel r = true) := by
  refine ⟨?_, ?_, ?_⟩
  · rintro (rfl | rfl) <;> simp [type_mask]
  · rintro t0 ts rfl
    cases hv : r.vesselType with
    | none => simp [type_mask, hv]
    | some v => simp [type_mask, hv, List.contains_iff_exists_mem_beq]
  · intro df lo hi m h
    rw [filter_wrecks, List.mem_filter] at h
    obtain ⟨-, hb⟩ := h
    simp only [Bool.and_eq_true] at hb
    exact hb.1.2

theorem vessel_type_selection_spec_witness :
    type_mask (some ["Schooner"]) alphaRec = true :=
  ((vessel_type_selection_spec (some ["Schooner"]) alphaRec).2.1 "Schooner" [] rfl).mpr
    ⟨"Schooner", by decide, by decide⟩

/-- C6: when source lives-lost values are absent or non-negative, every
loaded record's `livesLostClean` equals the value when present and 0 when
missing, hence is non-negative; and every record passing the filter has
`livesLostClean` at least the threshold. -/
theorem lives_lost_clean_spec (rows : List RawRecord)
    (hnn : ∀ r ∈ rows, ∀ v, r.livesLost = some v → 0 ≤ v) :
    (∀ rec ∈ load_data rows,
      (∀ v, rec.livesLost = some v → rec.livesLostClean = v) ∧
      (rec.livesLost = none → rec.livesLostClean = 0) ∧
      0 ≤ rec.livesLostClean) ∧
    (∀ lo hi sel m r, r ∈ filter_wrecks (load_data rows) lo hi sel m →
      m ≤ r.livesLostClean) := by
  constructor
  · intro rec hrec
    rw [load_data, List.mem_map] at hrec
    obtain ⟨raw, hraw, rfl⟩ := hrec
    refine ⟨?_, ?_, ?_⟩
    · intro v hv
      simp only [loadRecord] at hv ⊢
      rw [hv]
      rfl
    · intro hv
      simp only [loadRecord] at hv ⊢
      rw [hv]
      rfl
    · simp only [loadRecord]
      cases hl : raw.livesLost with
      | none => simp
      | some v => simpa using hnn raw hraw v hl
  · intro lo hi sel m r h
    rw [filter_wrecks, List.mem_filter] at h
    obtain ⟨-, hb⟩ := h
    simp only [Bool.and_eq_true] at hb
    have := hb.2
    unfold lives_mask at this
    exact of_decide_eq_true this

theorem lives_lost_clean_spec_witness :
    0 ≤ deltaRec.livesLostClean :=
  (((lives_lost_clean_spec [deltaRaw]
      (by intro r hr v hv; rw [List.mem_singleton] at hr; subst hr; simp [deltaRaw] at hv)).1)
    deltaRec (by decide)).2.2

/-- C8: for a non-empty view the deadliest ranking has at most 10 records,
is sorted non-increasing by `livesLostClean`, and when the view has fewer
than 10 records it is a permutation of (i.e. returns all of) the view. -/
theorem deadliest_ranking_spec (l : List WreckRecord) (s : DeadlyStats)
    (h : l ≠ []) (hs : show_deadliest_view l = some s) :
    s.top10.length ≤ 10 ∧
    List.Pairwise byLivesDesc s.top10 ∧
    (l.length < 10 → s.top10.Perm l) := by
  match l with
  | [] => exact absurd rfl h
  | r :: rs =>
    rw [show_deadliest_view] at hs
    have hsv := Option.some.inj hs
    subst hsv
    refine ⟨?_, ?_, ?_⟩
    · simp [List.length_take]
    · have hsorted : List.Pairwise byLivesDesc (List.insertionSort byLivesDesc (r :: rs)) :=
        List.sorted_insertionSort byLivesDesc (r :: rs)
      exact hsorted.sublist (List.take_sublist _ _)
    · intro hlen
      have ht : (List.insertionSort byLivesDesc (r :: rs)).take 10
          = List.insertionSort byLivesDesc (r :: rs) :=
        List.take_of_length_le (by rw [List.length_insertionSort]; omega)
      simp only [ht]
      exact List.perm_insertionSort _ _

theorem deadliest_ranking_spec_witness :
    ({ top10 := [deltaRec], total := 1, withLives := 0, sumLives := 0,
       maxLives := 0 } : DeadlyStats).top10.length ≤ 10 ∧
    List.Pairwise byLivesDesc
      ({ top10 := [deltaRec], total := 1, withLives := 0, sumLives := 0,
         maxLives := 0 } : DeadlyStats).top10 ∧
    ([deltaRec].length < 10 →
      ({ top10 := [deltaRec], total := 1, withLives := 0, sumLives := 0,
         maxLives := 0 } : DeadlyStats).top10.Perm [deltaRec]) :=
  deadliest_ranking_spec [deltaRec]
    { top10 := [deltaRec], total := 1, withLives := 0, sumLives := 0, maxLives := 0 }
    (by decide) (by decide)

theorem foldl_max_f (init : Int) (l : List WreckRecord) :
    l.foldl (fun acc x => max acc x.livesLostClean) init
      = (l.map (fun x => x.livesLostClean)).foldl max init := by
  induction l generalizing init with
  | nil => rfl
  | cons a l ih => simp [List.foldl_cons, List.map_cons, ih]

/-- C9: the deadliest and vessel-chart views report the no-matching-records
message (`none`) on an empty view instead of computing reductions, and the
max reduction of the deadliest view is computed only on non-empty views,
where it is well defined (attained and an upper bound). -/
theorem views_guard_empty_reductions (l : List WreckRecord) :
    (l = [] → show_deadliest_view l = none ∧ show_vessel_chart_view l = none) ∧
    (l ≠ [] → ∃ s, show_deadliest_view l = some s ∧
      s.maxLives ∈ l.map (fun r => r.livesLostClean) ∧
      ∀ v ∈ l.map (fun r => r.livesLostClean), v ≤ s.maxLives) := by
  constructor
  · rintro rfl
    exact ⟨rfl, rfl⟩
  · intro h
    match l with
    | [] => exact absurd rfl h
    | r :: rs =>
      refine ⟨_, rfl, ?_, ?_⟩
      · show rs.foldl (fun acc x => max acc x.livesLostClean) r.livesLostClean ∈ _
        rw [foldl_max_f, List.map_cons]
        rcases foldl_max_mem r.livesLostClean (rs.map fun x => x.livesLostClean) with h1 | h1
        · rw [h1]; exact List.mem_cons_self _ _
        · exact List.mem_cons_of_mem _ h1
      · intro v hv
        show v ≤ rs.foldl (fun acc x => max acc x.livesLostClean) r.livesLostClean
        rw [foldl_max_f]
        rw [List.map_cons] at hv
        rcases List.mem_cons.mp hv with rfl | hv
        · exact (le_foldl_max _ _).1
        · exact (le_foldl_max _ _).2 v hv

theorem views_guard_empty_reductions_witness :
    (show_deadliest_view [] = none ∧ show_vessel_chart_view [] = none) ∧
    (∃ s, show_deadliest_view [deltaRec] = some s ∧
      s.maxLives ∈ [deltaRec].map (fun r => r.livesLostClean) ∧
      ∀ v ∈ [deltaRec].map (fun r => r.livesLostClean), v ≤ s.maxLives) :=
  ⟨(views_guard_empty_reductions []).1 rfl,
   (views_guard_empty_reductions [deltaRec]).2 (by decide)⟩

/-- C10: `get_year_limits` returns the pair of minimum and maximum present
years (both attained and bounding every present year), and returns the
fallback `(1705, 2000)` when no year is present. -/
theorem get_year_limits_spec (df : List WreckRecord) :
    (df.filterMap (fun r => r.year) = [] → get_year_limits df = (1705, 2000)) ∧
    (df.filterMap (fun r => r.year) ≠ [] →
      (get_year_limits df).1 ∈ df.filterMap (fun r => r.year) ∧
      (get_year_limits df).2 ∈ df.filterMap (fun r => r.year) ∧
      ∀ y ∈ df.filterMap (fun r => r.year),
        (get_year_limits df).1 ≤ y ∧ y ≤ (get_year_limits df).2) := by
  cases hys : df.filterMap (fun r => r.year) with
  | nil =>
    refine ⟨fun _ => ?_, fun hne => absurd rfl hne⟩
    simp [get_year_limits, hys]
  | cons y ys =>
    have hval : get_year_limits df = (ys.foldl min y, ys.foldl max y) := by
      simp [get_year_limits, hys]
    refine ⟨fun he => absurd he (by simp), fun _ => ?_⟩
    rw [hval]
    refine ⟨?_, ?_, ?_⟩
    · show ys.foldl min y ∈ y :: ys
      rcases foldl_min_mem y ys with h1 | h1
      · rw [h1]; exact List.mem_cons_self _ _
      · exact List.mem_cons_of_mem _ h1
    · show ys.foldl max y ∈ y :: ys
      rcases foldl_max_mem y ys with h1 | h1
      · rw [h1]; exact List.mem_cons_self _ _
      · exact List.mem_cons_of_mem _ h1
    · intro z hz
      rcases List.mem_cons.mp hz with rfl | hz
      · exact ⟨(foldl_min_le _ _).1, (le_foldl_max _ _).1⟩
      · exact ⟨(foldl_min_le _ _).2 z hz, (le_foldl_max _ _).2 z hz⟩

theorem get_year_limits_spec_witness :
    get_year_limits [] = (1705, 2000) ∧
    ((get_year_limits sampleDf).1 ∈ sampleDf.filterMap (fun r => r.year) ∧
     (get_year_limits sampleDf).2 ∈ sampleDf.filterMap (fun r => r.year)) :=
  ⟨(get_year_limits_spec []).1 rfl,
   ((get_year_limits_spec sampleDf).2 (by decide)).1,
   ((get_year_limits_spec sampleDf).2 (by decide)).2.1⟩

/-- C2: on the view `dfBug` (types "B", "B", "A") the vessel chart reports
("A", 1) as the most frequently wrecked type, although the maximum group
count in the displayed table is 2 (for type "B"): the `iloc[idxmax]`
lookup reads the index label of the maximal row as a position in the
sorted table. -/
theorem vessel_chart_reports_nonmaximal_group :
    (show_vessel_chart_view dfBug).map (fun v => v.reported) = some (some ("A", 1)) ∧
    (show_vessel_chart_view dfBug).map (fun v => v.counts) = some [("B", 2), ("A", 1)] := by
  decide
